import Mathlib

/-!
Shallow embedding of the CalibBoardStitcher UI workflow
(`src/Workflow/MainWorkflow.py`, `src/QtUI/SubImage.py`,
`src/QtUI/Widgets/SubImagePixmapItem.py`, `src/QtUI/CalibBoardStitcherUI.py`).

Coordinates are modelled with `ℚ`, pixel channel values with `ℕ`,
canvas indices with `ℤ`.  Python dictionaries keyed by image id are
modelled as a key list (insertion order) together with a total lookup
function.  The engine package `CalibBoardStitcher` (`CalibResult`,
`Stitcher`) is not part of this repository's sources; where its
behaviour decides a property it is modelled from the spec, and each
such definition says so in its doc comment.
-/

namespace CalibStitcher

/-- A matched point pair, as stored by `CalibBoardStitcher.CalibResult.MatchedPoint`
(fields per spec §3/§6: `img_id`, `cb_point` in board space, `img_point`
in source-image pixel space). -/
structure MatchedPoint where
  img_id : String
  cb_point : ℚ × ℚ
  img_point : ℚ × ℚ
deriving DecidableEq, Repr

/-- The bounding box of one warped partial (`WrappedBox` of the spec;
`box.left/top/right/bottom` as read in `MainWorkflow.stitch_and_save_img`). -/
structure WrappedBox where
  left : ℚ
  top : ℚ
  right : ℚ
  bottom : ℚ
deriving DecidableEq, Repr

/-- The aggregate canvas rectangle `[l, t, r, b]` accumulated in
`stitch_and_save_img` step 2.1. -/
structure UnionRect where
  l : ℤ
  t : ℤ
  r : ℤ
  b : ℤ
deriving DecidableEq, Repr

/-- One iteration of the `i > 0` branch of the box-union loop
(`MainWorkflow.py` lines 300-303):
`l = min(l, floor(box.left)); t = min(t, floor(box.top));
 r = max(r, floor(box.right)); b = max(b, ceil(box.bottom))`.
Note the source takes `math.floor(box.right)` here, unlike the
`i == 0` branch which takes `math.ceil(box.right)`. -/
def union_rect_step (acc : UnionRect) (box : WrappedBox) : UnionRect :=
  ⟨min acc.l ⌊box.left⌋, min acc.t ⌊box.top⌋,
   max acc.r ⌊box.right⌋, max acc.b ⌈box.bottom⌉⟩

/-- The aggregate canvas rectangle computed by `stitch_and_save_img`
step 2.1 over the per-image boxes in iteration order: the `i == 0`
branch (lines 294-298) floors `left`/`top` and ceils `right`/`bottom`,
then each later box is folded in with `union_rect_step`. -/
def union_rect : List WrappedBox → Option UnionRect
  | [] => none
  | box :: rest =>
      some (rest.foldl union_rect_step
        ⟨⌊box.left⌋, ⌊box.top⌋, ⌈box.right⌉, ⌈box.bottom⌉⟩)

/-- The union rectangle as the spec words it: `l` and `t` are the minima
of the floors of the per-box lefts and tops, `r` and `b` the maxima of
the ceilings of the per-box rights and bottoms. -/
def union_rect_per_spec : List WrappedBox → Option UnionRect
  | [] => none
  | box :: rest =>
      some ⟨rest.foldl (fun a bx => min a ⌊bx.left⌋) ⌊box.left⌋,
            rest.foldl (fun a bx => min a ⌊bx.top⌋) ⌊box.top⌋,
            rest.foldl (fun a bx => max a ⌈bx.right⌉) ⌈box.right⌉,
            rest.foldl (fun a bx => max a ⌈bx.bottom⌉) ⌈box.bottom⌉⟩

/-- Shape of the composite canvas allocated by `stitch_and_save_img`
step 2.2. -/
structure AllocatedCanvas where
  rows : ℤ
  cols : ℤ
  channels : ℕ
  zero_initialised : Bool
deriving DecidableEq, Repr

/-- The canvas allocation of `stitch_and_save_img` step 2.2
(`MainWorkflow.py` lines 304-306): `base_w, base_h = r - l, b - t`, then
`base_img = numpy.zeros(shape=(base_w, base_h, 3), dtype=numpy.uint8)`.
A numpy image of shape `(d0, d1, 3)` has `d0` rows (its height) and `d1`
columns (its width), so the allocation yields `r - l` rows and `b - t`
columns, zero-filled, 3 channels. -/
def alloc_base_img (rect : UnionRect) : AllocatedCanvas :=
  ⟨rect.r - rect.l, rect.b - rect.t, 3, true⟩

/-- A BGR pixel value. -/
abbrev Pixel : Type := ℕ × ℕ × ℕ

/-- One warped partial as produced by `stitch_full_gen_wrapped_partial`:
a 4-channel image (BGR plane `rgb`, alpha plane `alpha`, both indexed by
partial-local `(row, col)`) together with its board-space box.  Pixel
planes are modelled as total functions on the unbounded grid. -/
structure WrappedPartialImage where
  rgb : ℤ → ℤ → Pixel
  alpha : ℤ → ℤ → ℕ
  box : WrappedBox

/-- The ROI arithmetic of `stitch_and_save_img` step 3.2
(`MainWorkflow.py` lines 316-324), given the union corner `(l, t)` and
the canvas extent `base_w × base_h`:
`box_l = floor(box.left) - l`, `box_r = ceil(box.right) - l`,
`box_t = floor(box.top) - t`, `box_b = ceil(box.bottom) - t`,
`roi_l = min(max(box_l, 0), base_w - 1)`, `roi_r = min(box_r, base_w - 1)`,
`roi_t = min(max(box_t, 0), base_h - 1)`, `roi_b = min(box_b, base_h - 1)`. -/
structure Roi where
  box_l : ℤ
  box_t : ℤ
  roi_l : ℤ
  roi_r : ℤ
  roi_t : ℤ
  roi_b : ℤ
deriving DecidableEq, Repr

def roi_of (l t base_w base_h : ℤ) (box : WrappedBox) : Roi :=
  let box_l := ⌊box.left⌋ - l
  let box_r := ⌈box.right⌉ - l
  let box_t := ⌊box.top⌋ - t
  let box_b := ⌈box.bottom⌉ - t
  ⟨box_l, box_t,
   min (max box_l 0) (base_w - 1), min box_r (base_w - 1),
   min (max box_t 0) (base_h - 1), min box_b (base_h - 1)⟩

/-- The copy condition of `stitch_and_save_img` step 3.3 at canvas
position `(y, x)` (row `y`, column `x`): the position lies in the
clipped ROI of the partial's box and the partial's alpha at the
corresponding partial-local position equals 255. -/
def in_copy_region (l t base_w base_h : ℤ) (p : WrappedPartialImage) (y x : ℤ) : Prop :=
  let roi := roi_of l t base_w base_h p.box
  roi.roi_t ≤ y ∧ y ≤ roi.roi_b ∧ roi.roi_l ≤ x ∧ x ≤ roi.roi_r ∧
    p.alpha (y - roi.box_t) (x - roi.box_l) = 255

instance (l t base_w base_h : ℤ) (p : WrappedPartialImage) (y x : ℤ) :
    Decidable (in_copy_region l t base_w base_h p y x) := by
  unfold in_copy_region
  infer_instance

/-- One pass of `stitch_and_save_img` step 3.3 (`MainWorkflow.py` lines
326-331), pointwise: inside the clipped ROI slice, canvas pixels whose
corresponding partial alpha equals 255 receive the partial's BGR value
(`base_img_roi[mask] = wrapped_partial_roi[mask]`); every other canvas
pixel keeps its previous value.  Indices are modelled on the unbounded
grid, i.e. in the regime where the numpy slices do not wrap or clip. -/
def composite_step (l t base_w base_h : ℤ) (canvas : ℤ → ℤ → Pixel)
    (p : WrappedPartialImage) : ℤ → ℤ → Pixel :=
  fun y x =>
    let roi := roi_of l t base_w base_h p.box
    if in_copy_region l t base_w base_h p y x then
      p.rgb (y - roi.box_t) (x - roi.box_l)
    else canvas y x

/-- Step 3 of `stitch_and_save_img`: the partials are applied to the
canvas one after the other, in list (iteration) order. -/
def composite_partials (l t base_w base_h : ℤ) (canvas : ℤ → ℤ → Pixel)
    (ps : List WrappedPartialImage) : ℤ → ℤ → Pixel :=
  ps.foldl (composite_step l t base_w base_h) canvas

/-- Embedding of `SubImagePixmapItem.get_matched_points` (`SubImagePixmapItem.py`
lines 100-113): for each stored matched-point widget the method emits
`MatchedPoint(img_id=self.img_id, cb_point=..., img_point=...)`, taking
both positions from the widget.  A widget is modelled by its pair of
positions (board-space, image-space). -/
def item_get_matched_points (item_img_id : String)
    (widgets : List ((ℚ × ℚ) × (ℚ × ℚ))) : List MatchedPoint :=
  widgets.map (fun w => ⟨item_img_id, w.1, w.2⟩)

/-- Embedding of `CalibBoardStitcherUI.get_sub_image_matched_points`
(`CalibBoardStitcherUI.py` lines 280-290): looks up the sub-image item
registered under `img_id` (the item was constructed with that very id in
`add_sub_image`) and returns its `get_matched_points()`.  The UI table
is modelled as the per-id widget lists; an id without an item has `[]`. -/
def get_sub_image_matched_points (widgets : String → List ((ℚ × ℚ) × (ℚ × ℚ)))
    (img_id : String) : List MatchedPoint :=
  item_get_matched_points img_id (widgets img_id)

/-- Modelled from the spec: `CalibBoardStitcher.CalibResult` is not under
`src/`.  Per spec §3/§4.4 it owns a mapping `img_id → ordered list of
MatchedPoint`, insertion order preserved, mutated only by
`add_matched_point`.  `keys` lists the ids holding an entry, in insertion
order; `points` is the per-id list (total function, `[]` when absent). -/
structure CalibResult where
  keys : List String
  points : String → List MatchedPoint

def empty_calib_result : CalibResult := ⟨[], fun _ => []⟩

/-- Modelled from the spec: `CalibResult.add_matched_point(p)` appends
`p` to the list keyed by `p.img_id`, creating the entry if absent; no
dedup (spec §4.4). -/
def add_matched_point (cr : CalibResult) (p : MatchedPoint) : CalibResult :=
  ⟨if p.img_id ∈ cr.keys then cr.keys else cr.keys ++ [p.img_id],
   fun id => if id = p.img_id then cr.points id ++ [p] else cr.points id⟩

/-- Modelled from the spec: `CalibResult.get_matched_points(img_id)`
returns the ordered sequence recorded for `img_id`, empty if none. -/
def get_matched_points (cr : CalibResult) (img_id : String) : List MatchedPoint :=
  cr.points img_id

/-- Modelled from the spec: `CalibResult.get_matched_img_id()` returns
the image ids holding ≥ 1 point. -/
def get_matched_img_id (cr : CalibResult) : List String :=
  cr.keys

/-- Step 1 of `stitch_and_save_img` (`MainWorkflow.py` lines 274-280),
one sub-image: the UI's matched points for this id are registered into
the `CalibResult` only when the list holds at least 3 points. -/
def register_step (widgets : String → List ((ℚ × ℚ) × (ℚ × ℚ)))
    (cr : CalibResult) (img_id : String) : CalibResult :=
  let mps := get_sub_image_matched_points widgets img_id
  if 3 ≤ mps.length then mps.foldl add_matched_point cr else cr

/-- Step 1 of `stitch_and_save_img` over all loaded sub-image ids. -/
def register_matched_images (widgets : String → List ((ℚ × ℚ) × (ℚ × ℚ)))
    (sub_image_ids : List String) : CalibResult :=
  sub_image_ids.foldl (register_step widgets) empty_calib_result

/-- The lengths of the matched-point lists passed to
`stitch_full_calc_wrapped_partial_box` in `stitch_and_save_img` step 2.1
(`MainWorkflow.py` lines 289-293): one call per id of
`calib_result.get_matched_img_id()`, with the points re-read from the UI. -/
def stitch_box_call_lengths (widgets : String → List ((ℚ × ℚ) × (ℚ × ℚ)))
    (sub_image_ids : List String) : List ℕ :=
  (get_matched_img_id (register_matched_images widgets sub_image_ids)).map
    (fun img_id => (get_sub_image_matched_points widgets img_id).length)

/-- The lengths of the matched-point lists passed to
`stitch_full_gen_wrapped_partial` in `stitch_and_save_img` step 3.1
(`MainWorkflow.py` lines 309-315): one call per id of
`calib_result.get_matched_img_id()`, with the points read back from the
`CalibResult`. -/
def stitch_gen_call_lengths (widgets : String → List ((ℚ × ℚ) × (ℚ × ℚ)))
    (sub_image_ids : List String) : List ℕ :=
  let cr := register_matched_images widgets sub_image_ids
  (get_matched_img_id cr).map (fun img_id => (get_matched_points cr img_id).length)

/-- The lengths of the matched-point lists passed to
`stitch_full_gen_wrapped_partial` by the import-from-file path
(`MainWorkflow._load_calib_data`, lines 176-193): for each id of the
loaded result that is also a loaded sub-image, the call is made only
under the guard `len(matched_points) >= 3`. -/
def import_gen_call_lengths (cr : CalibResult) (sub_image_ids : List String) : List ℕ :=
  (get_matched_img_id cr).filterMap (fun img_id =>
    if img_id ∈ sub_image_ids then
      if 3 ≤ (get_matched_points cr img_id).length then
        some (get_matched_points cr img_id).length
      else none
    else none)

/-- The keying invariant of spec §3: every point in the list keyed by
`X` has `img_id == X`. -/
def calib_keying_invariant (cr : CalibResult) : Prop :=
  ∀ img_id : String, ∀ p ∈ cr.points img_id, p.img_id = img_id

/-- Embedding of `MainWorkflow._save_matched_points` (lines 246-264): for every loaded
sub-image id, every matched point returned by the UI is registered into a
fresh `CalibResult` (no length filter), which is then saved. -/
def save_matched_points_result (widgets : String → List ((ℚ × ℚ) × (ℚ × ℚ)))
    (sub_image_ids : List String) : CalibResult :=
  sub_image_ids.foldl
    (fun cr img_id => (get_sub_image_matched_points widgets img_id).foldl add_matched_point cr)
    empty_calib_result

/-- Embedding of `MainWorkflow._add_new_matched_point` (lines 220-244): sums the
`cb_point`s of the image's existing matched points starting from
`(0, 0)`, divides by their number when the list is non-empty, builds
`MatchedPoint(img_id, cb_pos, pos)` and appends it to the list. -/
def add_new_matched_point (img_id : String) (pos : ℚ × ℚ)
    (matched_points : List MatchedPoint) : List MatchedPoint :=
  let cb_pos : ℚ × ℚ :=
    if 0 < matched_points.length then
      let s := matched_points.foldl
        (fun acc p => (acc.1 + p.cb_point.1, acc.2 + p.cb_point.2)) ((0 : ℚ), (0 : ℚ))
      (s.1 / matched_points.length, s.2 / matched_points.length)
    else (0, 0)
  matched_points ++ [⟨img_id, cb_pos, pos⟩]

/-- Embedding of `QtUI.SubImage.SubImageStatus`. -/
inductive SubImageStatus where
  | HIDE
  | SHOW_ORIGINAL_LOCKED
  | SHOW_ORIGINAL_MOVABLE
  | SHOW_TRANSFORMED_LOCKED
  | SHOW_TRANSFORMED_MOVABLE
deriving DecidableEq, Repr

/-- The observable state of one `SubImage` touched by `switch_to`: the
visibility and lock flags of its two pixmap items and the stored
`status` field. -/
structure SubImageView where
  original_visible : Bool
  transformed_visible : Bool
  original_locked : Bool
  transformed_locked : Bool
  status : SubImageStatus
deriving DecidableEq, Repr

/-- Embedding of `SubImage.switch_to` (`SubImage.py` lines 110-136): per-status
`setVisible` calls on the two pixmap items, `lock()`/`unlock()` on the
shown one in the four SHOW states, then `self.status = status`. -/
def switch_to (st : SubImageView) (status : SubImageStatus) : SubImageView :=
  match status with
  | .HIDE =>
      { st with original_visible := false, transformed_visible := false,
                status := status }
  | .SHOW_ORIGINAL_LOCKED =>
      { st with original_visible := true, transformed_visible := false,
                original_locked := true, status := status }
  | .SHOW_ORIGINAL_MOVABLE =>
      { st with original_visible := true, transformed_visible := false,
                original_locked := false, status := status }
  | .SHOW_TRANSFORMED_LOCKED =>
      { st with original_visible := false, transformed_visible := true,
                transformed_locked := true, status := status }
  | .SHOW_TRANSFORMED_MOVABLE =>
      { st with original_visible := false, transformed_visible := true,
                transformed_locked := false, status := status }

/-- The admission gate of the orchestrator: `MainWorkflow._task_mutex`
and `MainWorkflow._task_name`. -/
structure TaskGate where
  locked : Bool
  task_name : String
deriving DecidableEq, Repr

/-- The observable outcome of one `_try_load_task` call: the resulting
gate state, whether a worker thread was started, the returned boolean,
and the task name logged on rejection (if any). -/
structure TryLoadOutcome where
  gate : TaskGate
  thread_started : Bool
  returned : Bool
  logged_rejection : Option String
deriving DecidableEq, Repr

/-- Embedding of `MainWorkflow._try_load_task` with `wait=False` (`MainWorkflow.py`
lines 348-358): a non-blocking `acquire`; on success the task name is
stored, a daemon worker thread is started and `True` is returned; on
failure no thread is started, the warning names the currently stored
task, and `False` is returned. -/
def try_load_task (g : TaskGate) (task_name : String) : TryLoadOutcome :=
  if g.locked then ⟨g, false, false, some g.task_name⟩
  else ⟨⟨true, task_name⟩, true, true, none⟩

/-- Embedding of `MainWorkflow._do_task` (lines 344-346): the worker runs `task()` to
completion and only afterwards releases the mutex. -/
def do_task_release (g : TaskGate) : TaskGate :=
  ⟨false, g.task_name⟩

/-- One file of a folder batch in `_load_sub_image_seq_task`; `fails`
records whether processing it (the `try` body: `add_sub_image`,
`set_sub_image_status`, progress update, recording the `ImageInfo`)
raises an exception. -/
structure SubImageFile where
  name : String
  fails : Bool
deriving DecidableEq, Repr

/-- The observable state of `_load_sub_image_seq_task`: the recorded
sub-image table (`self._sub_image_infos`, in insertion order), the
progress-bar value, and the error log. -/
structure LoadSeqState where
  sub_image_infos : List String
  progress : ℕ
  error_log : List String
deriving DecidableEq, Repr

def load_error_msg (f : SubImageFile) : String :=
  "load image: " ++ f.name ++ " failed"

/-- One iteration of the folder loop (`MainWorkflow.py` lines 92-103):
on an exception the error is logged and nothing is recorded (the
`ImageInfo` entry is the last statement of the `try` body); otherwise
the file is recorded and the progress bar advances. -/
def load_seq_step (file_num : ℕ) (st : LoadSeqState)
    (idx_file : ℕ × SubImageFile) : LoadSeqState :=
  let i := idx_file.1
  let f := idx_file.2
  if f.fails then
    { st with error_log := st.error_log ++ [load_error_msg f] }
  else
    { st with sub_image_infos := st.sub_image_infos ++ [f.name],
              progress := (i + 1) * 100 / file_num }

/-- Embedding of `MainWorkflow._load_sub_image_seq_task` (lines 76-104) on a valid
folder whose listing is `files`, with the stop event never set: progress
starts at 0, the table starts empty, each file is processed in turn, and
the task ends by forcing the progress bar to 100. -/
def load_sub_image_seq_task (files : List SubImageFile) : LoadSeqState :=
  let final := files.enum.foldl (load_seq_step files.length) ⟨[], 0, []⟩
  { final with progress := 100 }

/-- One captured image as seen by `_detect_and_load_qr`: whether
`Stitcher.from_qr_img` decodes a board QR from it, and the matched
points `Stitcher.match` returns on it (per spec §4.2, `match` returns an
empty sequence when no code decodes). -/
structure QrImage where
  has_board_qr : Bool
  matched : List MatchedPoint

/-- The calibration loop of `_detect_and_load_qr` (`MainWorkflow.py`
lines 127-155), keeping only its exception behaviour: with no stitcher
configured, `self._stitcher.match(img, img_id)` dereferences `None` and
raises `AttributeError`; with a stitcher but no `calib_result` (the
result object is created only inside the board-search loop),
`calib_result.add_matched_point(...)` dereferences `None` as soon as a
match list is non-empty.  The remaining body (logging, engine stitching
of images with non-empty match lists, UI updates) is elided; under this
claim's premise of zero decoded codes it is never reached. -/
def detect_calib_loop (has_stitcher has_calib_result : Bool) :
    List QrImage → Except String Unit
  | [] => Except.ok ()
  | img :: rest =>
      if has_stitcher = false then
        Except.error "AttributeError on NoneType.match"
      else if has_calib_result = false ∧ img.matched ≠ [] then
        Except.error "AttributeError on NoneType.add_matched_point"
      else
        detect_calib_loop has_stitcher has_calib_result rest

/-- Embedding of `MainWorkflow._detect_and_load_qr` (lines 106-158).  The first loop
(lines 117-124) leaves `self._stitcher` set iff it was already set or
some image decodes a board QR, and creates `calib_result` only when the
stitcher was found inside this loop; the second loop is
`detect_calib_loop`.  The result is `ok` when no exception escapes. -/
def detect_and_load_qr (stitcher_configured : Bool) (imgs : List QrImage) :
    Except String Unit :=
  let found := imgs.any (fun i => i.has_board_qr)
  let has_stitcher := stitcher_configured || found
  let has_calib_result := !stitcher_configured && found
  detect_calib_loop has_stitcher has_calib_result imgs

/-! Concrete inputs used by the witness theorems. -/

/-- An all-black canvas. -/
def c2_canvas : ℤ → ℤ → Pixel := fun _ _ => (0, 0, 0)

/-- A solid dark partial with full alpha over box `[0,4]×[0,4]`. -/
def c2_partial_a : WrappedPartialImage :=
  ⟨fun _ _ => (10, 10, 10), fun _ _ => 255, ⟨0, 0, 4, 4⟩⟩

/-- A solid light partial with full alpha over box `[2,6]×[2,6]`,
overlapping `c2_partial_a`. -/
def c2_partial_b : WrappedPartialImage :=
  ⟨fun _ _ => (20, 20, 20), fun _ _ => 255, ⟨2, 2, 6, 6⟩⟩

/-- A UI widget table holding three matched-point widgets for image
`"a"` and none for any other image. -/
def c5_widgets : String → List ((ℚ × ℚ) × (ℚ × ℚ)) :=
  fun img_id =>
    if img_id = "a" then
      [((0, 0), (0, 0)), ((40, 0), (100, 0)), ((0, 40), (0, 100))]
    else []

/-- Two matched points for image `"a"` with board points `(1, 2)` and
`(3, 4)`. -/
def c9_points : List MatchedPoint :=
  [⟨"a", (1, 2), (10, 10)⟩, ⟨"a", (3, 4), (20, 20)⟩]

end CalibStitcher

namespace CalibStitcher

/-- C1: the code's aggregate rectangle and the spec's union rectangle
disagree: with a first box of right edge `10` and a second box of right
edge `11.5`, the code computes `r = max(⌈10⌉, ⌊11.5⌋) = 11` (the `i > 0`
branch floors `box.right`), while the claimed maximum of ceilings is
`max(10, 12) = 12`. -/
theorem union_rect_floors_later_rights :
    union_rect [⟨0, 0, 10, 10⟩, ⟨0, 0, 23/2, 10⟩] = some ⟨0, 0, 11, 10⟩ ∧
    union_rect_per_spec [⟨0, 0, 10, 10⟩, ⟨0, 0, 23/2, 10⟩] = some ⟨0, 0, 12, 10⟩ := by
  have hfl : ⌊(23 : ℚ)/2⌋ = 11 := by norm_num
  have hcl : ⌈(23 : ℚ)/2⌉ = 12 := by
    rw [Int.ceil_eq_iff]
    norm_num
  constructor <;>
    simp [union_rect, union_rect_step, union_rect_per_spec, hfl, hcl]

/-- C3: the canvas allocated for the union rectangle `l=0, t=0, r=4, b=2`
is zero-initialised with 3 channels, but its extent is transposed: the
code's `numpy.zeros(shape=(base_w, base_h, 3))` yields `r - l = 4` rows
and `b - t = 2` columns, not the claimed `r - l` columns and `b - t`
rows. -/
theorem alloc_base_img_transposed :
    (alloc_base_img ⟨0, 0, 4, 2⟩).channels = 3 ∧
    (alloc_base_img ⟨0, 0, 4, 2⟩).zero_initialised = true ∧
    (alloc_base_img ⟨0, 0, 4, 2⟩).rows = 4 ∧
    (alloc_base_img ⟨0, 0, 4, 2⟩).cols = 2 ∧
    ¬((alloc_base_img ⟨0, 0, 4, 2⟩).cols = 4 ∧
      (alloc_base_img ⟨0, 0, 4, 2⟩).rows = 2) := by
  decide

/-- C4: on a batch of one image in which no QR code decodes, with no
stitcher configured beforehand, `_detect_and_load_qr` raises an
`AttributeError` (`self._stitcher.match` on `None`) instead of returning
recoverably; the empty batch, by contrast, completes without an
exception. -/
theorem detect_and_load_qr_raises_on_no_board :
    detect_and_load_qr false [⟨false, []⟩]
      = Except.error "AttributeError on NoneType.match" ∧
    detect_and_load_qr false [] = Except.ok () := by
  constructor <;> rfl

/-- C6: while the task gate is held, a non-blocking admission request
leaves the gate unchanged, starts no worker thread, returns `False` and
logs a rejection naming the currently stored (running) task; while it is
free, the request stores the new name, starts a worker and returns
`True`; and the release performed by `_do_task` after the task body
completes clears the gate. -/
theorem try_load_task_single_admission (g : TaskGate) (task_name : String) :
    (g.locked = true →
      try_load_task g task_name = ⟨g, false, false, some g.task_name⟩) ∧
    (g.locked = false →
      try_load_task g task_name = ⟨⟨true, task_name⟩, true, true, none⟩) ∧
    (do_task_release g).locked = false := by
  refine ⟨fun h => ?_, fun h => ?_, rfl⟩ <;> simp [try_load_task, h]

/-- Witness for C6: with the gate held by "Stitch and save img", a
request to admit the sub-image loading task is rejected, starting no
thread and logging the running task's name. -/
theorem try_load_task_single_admission_witness :
    (⟨true, "Stitch and save img"⟩ : TaskGate).locked = true ∧
    try_load_task ⟨true, "Stitch and save img"⟩ "Load sub image sequence task"
      = ⟨⟨true, "Stitch and save img"⟩, false, false, some "Stitch and save img"⟩ :=
  ⟨rfl,
   (try_load_task_single_admission ⟨true, "Stitch and save img"⟩
      "Load sub image sequence task").1 rfl⟩

/-- C10: after `switch_to s` the stored status is `s`, the original
pixmap item is visible exactly in the two SHOW_ORIGINAL states and the
transformed pixmap item exactly in the two SHOW_TRANSFORMED states; in
particular both are hidden for HIDE and at most one is ever visible. -/
theorem switch_to_visibility (st : SubImageView) (s : SubImageStatus) :
    (switch_to st s).status = s ∧
    ((switch_to st s).original_visible = true ↔
      s = SubImageStatus.SHOW_ORIGINAL_LOCKED ∨
      s = SubImageStatus.SHOW_ORIGINAL_MOVABLE) ∧
    ((switch_to st s).transformed_visible = true ↔
      s = SubImageStatus.SHOW_TRANSFORMED_LOCKED ∨
      s = SubImageStatus.SHOW_TRANSFORMED_MOVABLE) := by
  cases s <;> simp [switch_to]

/-- Witness for C10 at a concrete state and status. -/
theorem switch_to_visibility_witness :
    (switch_to ⟨true, true, false, false, SubImageStatus.HIDE⟩
        SubImageStatus.SHOW_TRANSFORMED_LOCKED).status
      = SubImageStatus.SHOW_TRANSFORMED_LOCKED ∧
    (switch_to ⟨true, true, false, false, SubImageStatus.HIDE⟩
        SubImageStatus.SHOW_TRANSFORMED_LOCKED).original_visible = false ∧
    (switch_to ⟨true, true, false, false, SubImageStatus.HIDE⟩
        SubImageStatus.SHOW_TRANSFORMED_LOCKED).transformed_visible = true := by
  refine ⟨(switch_to_visibility ⟨true, true, false, false, SubImageStatus.HIDE⟩
    SubImageStatus.SHOW_TRANSFORMED_LOCKED).1, by decide, by decide⟩

/-- The pairwise accumulation of `cb_point` coordinates in
`_add_new_matched_point` computes the componentwise sums. -/
theorem foldl_cb_sum (l : List MatchedPoint) (a b : ℚ) :
    l.foldl (fun acc p => (acc.1 + p.cb_point.1, acc.2 + p.cb_point.2)) (a, b)
      = (a + (l.map fun p => p.cb_point.1).sum,
         b + (l.map fun p => p.cb_point.2).sum) := by
  induction l generalizing a b with
  | nil => simp
  | cons hd tl ih =>
      simp only [List.foldl_cons, List.map_cons, List.sum_cons]
      rw [ih]
      simp [add_assoc]

/-- C9: `_add_new_matched_point` appends exactly one new point to the
image's list — existing entries unchanged — whose `img_point` is the
given position, whose `img_id` is the given id, and whose `cb_point` is
the arithmetic mean of the existing points' `cb_point`s, or `(0, 0)`
when the list was empty. -/
theorem add_new_matched_point_appends_mean (img_id : String) (pos : ℚ × ℚ)
    (mps : List MatchedPoint) :
    add_new_matched_point img_id pos mps
      = mps ++ [⟨img_id,
          (if mps.length = 0 then ((0 : ℚ), (0 : ℚ))
           else ((mps.map fun p => p.cb_point.1).sum / mps.length,
                 (mps.map fun p => p.cb_point.2).sum / mps.length)),
          pos⟩] ∧
    (add_new_matched_point img_id pos mps).length = mps.length + 1 ∧
    (add_new_matched_point img_id pos mps).take mps.length = mps := by
  have hmain : add_new_matched_point img_id pos mps
      = mps ++ [⟨img_id,
          (if mps.length = 0 then ((0 : ℚ), (0 : ℚ))
           else ((mps.map fun p => p.cb_point.1).sum / mps.length,
                 (mps.map fun p => p.cb_point.2).sum / mps.length)),
          pos⟩] := by
    unfold add_new_matched_point
    rcases Nat.eq_zero_or_pos mps.length with h0 | hpos
    · simp [h0]
    · rw [if_pos hpos, if_neg (Nat.pos_iff_ne_zero.mp hpos), foldl_cb_sum]
      simp
  refine ⟨hmain, ?_, ?_⟩
  · rw [hmain]
    simp
  · rw [hmain]
    simp

/-- Witness for C9: appending to two points with board points `(1, 2)`
and `(3, 4)` produces the mean `(2, 3)`. -/
theorem add_new_matched_point_appends_mean_witness :
    add_new_matched_point "a" ((5 : ℚ), (6 : ℚ)) c9_points
      = c9_points ++ [⟨"a", ((2 : ℚ), (3 : ℚ)), ((5 : ℚ), (6 : ℚ))⟩] := by
  rw [(add_new_matched_point_appends_mean "a" ((5 : ℚ), (6 : ℚ)) c9_points).1]
  norm_num [c9_points]

/-- The folder loop of `_load_sub_image_seq_task` records exactly the
files whose processing does not raise, in order, and logs exactly the
failures, in order. -/
theorem load_seq_fold_spec (n : ℕ) (l : List (ℕ × SubImageFile)) (st : LoadSeqState) :
    (l.foldl (load_seq_step n) st).sub_image_infos
      = st.sub_image_infos
        ++ ((l.map Prod.snd).filter (fun f => !f.fails)).map (fun f => f.name) ∧
    (l.foldl (load_seq_step n) st).error_log
      = st.error_log ++ ((l.map Prod.snd).filter (fun f => f.fails)).map load_error_msg := by
  induction l generalizing st with
  | nil => simp
  | cons hd tl ih =>
      rcases hd with ⟨i, f⟩
      rcases ih (load_seq_step n st (i, f)) with ⟨h1, h2⟩
      by_cases hf : f.fails = true
      · constructor
        · rw [List.foldl_cons, h1]
          simp [load_seq_step, hf]
        · rw [List.foldl_cons, h2]
          simp [load_seq_step, hf]
      · constructor
        · rw [List.foldl_cons, h1]
          simp [load_seq_step, hf]
        · rw [List.foldl_cons, h2]
          simp [load_seq_step, hf]

/-- C7: a folder batch in `_load_sub_image_seq_task` skips exactly the
files whose processing raises — they are logged and not recorded in the
sub-image table — continues with all remaining files, and ends with the
progress bar at 100. -/
theorem load_sub_image_seq_skips_failures (files : List SubImageFile) :
    (load_sub_image_seq_task files).sub_image_infos
      = (files.filter (fun f => !f.fails)).map (fun f => f.name) ∧
    (load_sub_image_seq_task files).error_log
      = (files.filter (fun f => f.fails)).map load_error_msg ∧
    (load_sub_image_seq_task files).progress = 100 := by
  have h := load_seq_fold_spec files.length files.enum ⟨[], 0, []⟩
  rw [List.enum_map_snd] at h
  exact ⟨by simpa [load_sub_image_seq_task] using h.1,
         by simpa [load_sub_image_seq_task] using h.2,
         rfl⟩

/-- Witness for C7: a three-file batch whose middle file fails records
the first and third file, logs the middle one, and ends at 100. -/
theorem load_sub_image_seq_skips_failures_witness :
    (load_sub_image_seq_task
        [⟨"a.png", false⟩, ⟨"b.png", true⟩, ⟨"c.png", false⟩]).sub_image_infos
      = ["a.png", "c.png"] ∧
    (load_sub_image_seq_task
        [⟨"a.png", false⟩, ⟨"b.png", true⟩, ⟨"c.png", false⟩]).error_log
      = [load_error_msg ⟨"b.png", true⟩] ∧
    (load_sub_image_seq_task
        [⟨"a.png", false⟩, ⟨"b.png", true⟩, ⟨"c.png", false⟩]).progress = 100 := by
  have h := load_sub_image_seq_skips_failures
    [⟨"a.png", false⟩, ⟨"b.png", true⟩, ⟨"c.png", false⟩]
  exact ⟨by rw [h.1]; decide, by rw [h.2.1]; decide, h.2.2⟩

/-- C2: partials are applied in list order; one application copies the
partial's BGR pixels to exactly the clipped-ROI positions whose alpha is
255, leaves every other canvas pixel unchanged, and hence compositing
`[A, B]` yields B's pixel wherever B's copy condition holds
(last-writer-wins, no blending). -/
theorem composite_last_writer_wins (l t base_w base_h : ℤ)
    (canvas : ℤ → ℤ → Pixel) (A B : WrappedPartialImage) (y x : ℤ) :
    (∀ p : WrappedPartialImage, in_copy_region l t base_w base_h p y x →
      composite_step l t base_w base_h canvas p y x
        = p.rgb (y - (roi_of l t base_w base_h p.box).box_t)
                (x - (roi_of l t base_w base_h p.box).box_l)) ∧
    (∀ p : WrappedPartialImage, ¬ in_copy_region l t base_w base_h p y x →
      composite_step l t base_w base_h canvas p y x = canvas y x) ∧
    (in_copy_region l t base_w base_h B y x →
      composite_partials l t base_w base_h canvas [A, B] y x
        = B.rgb (y - (roi_of l t base_w base_h B.box).box_t)
                (x - (roi_of l t base_w base_h B.box).box_l)) := by
  refine ⟨fun p h => ?_, fun p h => ?_, fun h => ?_⟩
  · simp only [composite_step]
    rw [if_pos h]
  · simp only [composite_step]
    rw [if_neg h]
  · simp only [composite_partials, List.foldl_cons, List.foldl_nil]
    simp only [composite_step]
    rw [if_pos h]

/-- Witness for C2: two overlapping full-alpha solid partials composited
A then B give B's colour at the overlap position `(3, 3)`. -/
theorem composite_last_writer_wins_witness :
    in_copy_region 0 0 10 10 c2_partial_b 3 3 ∧
    composite_partials 0 0 10 10 c2_canvas [c2_partial_a, c2_partial_b] 3 3
      = (20, 20, 20) := by
  have h : in_copy_region 0 0 10 10 c2_partial_b 3 3 := by
    unfold in_copy_region roi_of c2_partial_b
    norm_num
  exact ⟨h, (composite_last_writer_wins 0 0 10 10 c2_canvas
    c2_partial_a c2_partial_b 3 3).2.2 h⟩

/-- Every point built by the pixmap item for `X` carries `img_id = X`. -/
theorem item_get_matched_points_img_id (X : String)
    (ws : List ((ℚ × ℚ) × (ℚ × ℚ))) (p : MatchedPoint)
    (h : p ∈ item_get_matched_points X ws) : p.img_id = X := by
  simp only [item_get_matched_points, List.mem_map] at h
  obtain ⟨w, _, hp⟩ := h
  subst hp
  rfl

/-- Registering a list of points updates each per-id list by appending
exactly the registered points carrying that id, in order. -/
theorem points_foldl_add (ps : List MatchedPoint) (cr : CalibResult) (id : String) :
    (ps.foldl add_matched_point cr).points id
      = cr.points id ++ ps.filter (fun p => p.img_id = id) := by
  induction ps generalizing cr with
  | nil => simp
  | cons hd tl ih =>
      rw [List.foldl_cons, ih]
      by_cases h : hd.img_id = id
      · subst h
        simp [add_matched_point, List.filter_cons]
      · have h' : ¬(id = hd.img_id) := fun hh => h hh.symm
        simp [add_matched_point, h, h', List.filter_cons]

/-- Registering a list of points adds no key beyond the ids carried by
the registered points. -/
theorem keys_foldl_add (ps : List MatchedPoint) (cr : CalibResult) (id : String) :
    id ∈ (ps.foldl add_matched_point cr).keys →
      id ∈ cr.keys ∨ id ∈ ps.map MatchedPoint.img_id := by
  induction ps generalizing cr with
  | nil =>
      intro h
      exact Or.inl h
  | cons hd tl ih =>
      intro h
      rw [List.foldl_cons] at h
      rcases ih (add_matched_point cr hd) h with h1 | h1
      · by_cases hm : hd.img_id ∈ cr.keys
        · simp only [add_matched_point, if_pos hm] at h1
          exact Or.inl h1
        · simp only [add_matched_point, if_neg hm, List.mem_append,
            List.mem_singleton] at h1
          rcases h1 with h1 | h1
          · exact Or.inl h1
          · exact Or.inr (by simp [h1])
      · exact Or.inr (by simp [h1])

/-- Step 1 of `stitch_and_save_img` maintains: every id holding an entry
in the `CalibResult` passed the `>= 3` filter, and its stored list has at
least 3 points. -/
theorem register_fold_ge3 (widgets : String → List ((ℚ × ℚ) × (ℚ × ℚ)))
    (ids : List String) (cr : CalibResult)
    (hinv : ∀ id, id ∈ cr.keys →
      3 ≤ (get_sub_image_matched_points widgets id).length ∧
      3 ≤ (cr.points id).length) :
    ∀ id, id ∈ (ids.foldl (register_step widgets) cr).keys →
      3 ≤ (get_sub_image_matched_points widgets id).length ∧
      3 ≤ ((ids.foldl (register_step widgets) cr).points id).length := by
  induction ids generalizing cr with
  | nil => exact hinv
  | cons hd tl ih =>
      refine ih (register_step widgets cr hd) ?_
      intro id hid
      by_cases h3 : 3 ≤ (get_sub_image_matched_points widgets hd).length
      · have hstep : register_step widgets cr hd
            = (get_sub_image_matched_points widgets hd).foldl add_matched_point cr := by
          simp [register_step, h3]
        rw [hstep] at hid ⊢
        rcases keys_foldl_add _ _ _ hid with hk | hk
        · rcases hinv id hk with ⟨ha, hb⟩
          refine ⟨ha, ?_⟩
          rw [points_foldl_add]
          calc 3 ≤ (cr.points id).length := hb
            _ ≤ _ := by simp
        · have hid_eq : id = hd := by
            simp only [get_sub_image_matched_points, item_get_matched_points,
              List.map_map, List.mem_map, Function.comp] at hk
            obtain ⟨w, _, hw⟩ := hk
            exact hw.symm
          subst hid_eq
          refine ⟨h3, ?_⟩
          rw [points_foldl_add]
          have hfull : (get_sub_image_matched_points widgets id).filter
              (fun p => p.img_id = id) = get_sub_image_matched_points widgets id := by
            apply List.filter_eq_self.mpr
            intro p hp
            simp [item_get_matched_points_img_id id (widgets id) p hp]
          rw [hfull]
          calc 3 ≤ (get_sub_image_matched_points widgets id).length := h3
            _ ≤ _ := by simp
      · have hstep : register_step widgets cr hd = cr := by
          simp [register_step, h3]
        rw [hstep] at hid ⊢
        exact hinv id hid

/-- Every id holding an entry after step 1 of `stitch_and_save_img`
passed the `>= 3` filter and stores at least 3 points. -/
theorem register_matched_keys_ge3 (widgets : String → List ((ℚ × ℚ) × (ℚ × ℚ)))
    (sub_image_ids : List String) (id : String)
    (h : id ∈ (register_matched_images widgets sub_image_ids).keys) :
    3 ≤ (get_sub_image_matched_points widgets id).length ∧
    3 ≤ ((register_matched_images widgets sub_image_ids).points id).length := by
  refine register_fold_ge3 widgets sub_image_ids empty_calib_result ?_ id h
  intro id hid
  simp [empty_calib_result] at hid

/-- C5: every invocation of `stitch_full_calc_wrapped_partial_box`
(step 2.1) and of `stitch_full_gen_wrapped_partial` (step 3.1) issued by
`stitch_and_save_img`, and every `stitch_full_gen_wrapped_partial` call
issued by the import-from-file path, receives a matched-point list of
length at least 3, so the `InsufficientMatchedPoints` branch is
unreachable from these call sites. -/
theorem stitch_calls_get_three_points
    (widgets : String → List ((ℚ × ℚ) × (ℚ × ℚ))) (sub_image_ids : List String)
    (cr : CalibResult) (loaded_ids : List String) :
    (∀ n ∈ stitch_box_call_lengths widgets sub_image_ids, 3 ≤ n) ∧
    (∀ n ∈ stitch_gen_call_lengths widgets sub_image_ids, 3 ≤ n) ∧
    (∀ n ∈ import_gen_call_lengths cr loaded_ids, 3 ≤ n) := by
  refine ⟨?_, ?_, ?_⟩
  · intro n hn
    simp only [stitch_box_call_lengths, get_matched_img_id, List.mem_map] at hn
    obtain ⟨id, hid, rfl⟩ := hn
    exact (register_matched_keys_ge3 widgets sub_image_ids id hid).1
  · intro n hn
    simp only [stitch_gen_call_lengths, get_matched_img_id, get_matched_points,
      List.mem_map] at hn
    obtain ⟨id, hid, rfl⟩ := hn
    exact (register_matched_keys_ge3 widgets sub_image_ids id hid).2
  · intro n hn
    simp only [import_gen_call_lengths, List.mem_filterMap] at hn
    obtain ⟨id, _, h⟩ := hn
    by_cases h1 : id ∈ loaded_ids
    · rw [if_pos h1] at h
      by_cases h2 : 3 ≤ (get_matched_points cr id).length
      · rw [if_pos h2] at h
        rw [← Option.some.inj h]
        exact h2
      · rw [if_neg h2] at h
        cases h
    · rw [if_neg h1] at h
      cases h

/-- Witness for C5: with three widgets on image "a" and none elsewhere,
the single sizing call receives a 3-point list. -/
theorem stitch_calls_get_three_points_witness :
    (3 : ℕ) ∈ stitch_box_call_lengths c5_widgets ["a", "b"] ∧ 3 ≤ (3 : ℕ) :=
  ⟨by decide,
   (stitch_calls_get_three_points c5_widgets ["a", "b"] empty_calib_result []).1
     3 (by decide)⟩

/-- Lemma: `add_matched_point` preserves the keying invariant: it appends the
point under its own `img_id`. -/
theorem add_matched_point_keying (cr : CalibResult) (p : MatchedPoint)
    (h : calib_keying_invariant cr) :
    calib_keying_invariant (add_matched_point cr p) := by
  intro id q hq
  by_cases hid : id = p.img_id
  · simp only [add_matched_point, if_pos hid, List.mem_append,
      List.mem_singleton] at hq
    rcases hq with hq | hq
    · exact h id q hq
    · rw [hq, hid]
  · simp only [add_matched_point, if_neg hid] at hq
    exact h id q hq

/-- Registering any list of points preserves the keying invariant. -/
theorem foldl_add_keying (ps : List MatchedPoint) (cr : CalibResult)
    (h : calib_keying_invariant cr) :
    calib_keying_invariant (ps.foldl add_matched_point cr) := by
  induction ps generalizing cr with
  | nil => exact h
  | cons hd tl ih => exact ih _ (add_matched_point_keying _ _ h)

/-- The empty `CalibResult` satisfies the keying invariant. -/
theorem empty_calib_keying : calib_keying_invariant empty_calib_result := by
  intro id q hq
  simp [empty_calib_result] at hq

/-- C8: every `MatchedPoint` returned by `SubImagePixmapItem.get_matched_points`
on the item for `X` carries `img_id = X`, and the `CalibResult` built by
`_save_matched_points` from the UI's per-image lists satisfies the
keying invariant — every point stored under key `X` has `img_id = X` at
every registration site. -/
theorem matched_point_keying
    (X : String) (ws : List ((ℚ × ℚ) × (ℚ × ℚ)))
    (widgets : String → List ((ℚ × ℚ) × (ℚ × ℚ))) (sub_image_ids : List String) :
    (∀ p ∈ item_get_matched_points X ws, p.img_id = X) ∧
    calib_keying_invariant (save_matched_points_result widgets sub_image_ids) := by
  constructor
  · intro p hp
    exact item_get_matched_points_img_id X ws p hp
  · unfold save_matched_points_result
    have hfold : ∀ (ids : List String) (cr : CalibResult),
        calib_keying_invariant cr →
        calib_keying_invariant
          (ids.foldl (fun cr id =>
            (get_sub_image_matched_points widgets id).foldl add_matched_point cr) cr) := by
      intro ids
      induction ids with
      | nil => exact fun cr h => h
      | cons hd tl ih => exact fun cr h => ih _ (foldl_add_keying _ _ h)
    exact hfold sub_image_ids empty_calib_result empty_calib_keying

/-- Witness for C8 at concrete items and a concrete saved result. -/
theorem matched_point_keying_witness :
    (⟨"a", (0, 0), (0, 0)⟩ : MatchedPoint)
        ∈ item_get_matched_points "a" [((0, 0), (0, 0))] ∧
    (⟨"a", (0, 0), (0, 0)⟩ : MatchedPoint).img_id = "a" ∧
    (⟨"a", (40, 0), (100, 0)⟩ : MatchedPoint)
        ∈ (save_matched_points_result c5_widgets ["a"]).points "a" ∧
    (⟨"a", (40, 0), (100, 0)⟩ : MatchedPoint).img_id = "a" := by
  refine ⟨by decide, ?_, by decide, ?_⟩
  · exact (matched_point_keying "a" [((0, 0), (0, 0))] c5_widgets ["a"]).1 _ (by decide)
  · exact (matched_point_keying "a" [((0, 0), (0, 0))] c5_widgets ["a"]).2 "a" _ (by decide)

end CalibStitcher
